import Mathlib

/-!
Verification of the CSV ingestion pipeline of the Versatex analytics backend
(`backend/apps/procurement/services.py` and `backend/apps/procurement/models.py`).

Strings are modelled as `List Char`; Python byte strings as `List (Fin 256)`;
Python `Decimal` values as an exact coefficient/exponent pair; the relational
store as explicit lists of rows.  Each definition is a direct translation of
the corresponding Python function, keeping the source's names where Lean's
grammar allows it.
-/

namespace Versatex

/-- Python strings, modelled as lists of characters. -/
abbrev Str := List Char

/-- The characters removed by Python's `str.strip()` with no argument:
exactly the code points for which `str.isspace()` holds. -/
def isPySpace (c : Char) : Bool :=
  decide ((9 ≤ c.toNat ∧ c.toNat ≤ 13) ∨ (28 ≤ c.toNat ∧ c.toNat ≤ 31) ∨
    c.toNat = 32 ∨ c.toNat = 133 ∨ c.toNat = 160 ∨ c.toNat = 5760 ∨
    (8192 ≤ c.toNat ∧ c.toNat ≤ 8202) ∨ c.toNat = 8232 ∨ c.toNat = 8233 ∨
    c.toNat = 8239 ∨ c.toNat = 8287 ∨ c.toNat = 12288)

/-- `str.lstrip()`. -/
def lstrip (l : Str) : Str := l.dropWhile isPySpace

/-- `str.rstrip()`. -/
def rstrip (l : Str) : Str := (l.reverse.dropWhile isPySpace).reverse

/-- `str.strip()`: drop leading and trailing whitespace. -/
def pyStrip (l : Str) : Str := rstrip (lstrip l)

/-- `str.lower()` (the inputs the pipeline lowers are ASCII). -/
def pyLower (l : Str) : Str := l.map Char.toLower

/-- The single-quote character `'` used as the formula-escape marker. -/
def squote : Char := Char.ofNat 39

/-- services.py line 23: characters that can trigger formula execution in
spreadsheets.  `FORMULA_CHARS = ('=', '+', '-', '@', '\t', '\r', '\n')`. -/
def FORMULA_CHARS : List Char := ['=', '+', '-', '@', '\t', '\r', '\n']

/-- services.py lines 29-44, `sanitize_csv_value`: return the value unchanged
when it is empty, otherwise strip it and prepend a single quote when the
stripped value is non-empty and starts with a formula character. -/
def sanitize_csv_value (v : Str) : Str :=
  if v = [] then v
  else
    match pyStrip v with
    | [] => []
    | c :: cs => if c ∈ FORMULA_CHARS then squote :: c :: cs else c :: cs

/-- Spec-side sanitizer (spec §4.2, stated for comparison with the code): if
the trimmed value is non-empty and its first character belongs to the unsafe
set, prepend a single quote; otherwise return the trimmed value unchanged. -/
def sanitizeSpec (v : Str) : Str :=
  match pyStrip v with
  | [] => []
  | c :: cs => if c ∈ FORMULA_CHARS then squote :: c :: cs else c :: cs

/-! Helper lemmas about `dropWhile` and the strip functions. -/

theorem dropWhile_head_false {α : Type} (p : α → Bool) :
    ∀ (l : List α) (c : α) (cs : List α), l.dropWhile p = c :: cs → p c = false := by
  intro l
  induction l with
  | nil => intro c cs h; simp [List.dropWhile] at h
  | cons a t ih =>
    intro c cs h
    by_cases hp : p a
    · rw [List.dropWhile_cons_of_pos hp] at h
      exact ih c cs h
    · rw [List.dropWhile_cons_of_neg hp] at h
      obtain ⟨rfl, -⟩ := List.cons.inj h
      simpa using hp

theorem dropWhile_idem {α : Type} (p : α → Bool) (l : List α) :
    (l.dropWhile p).dropWhile p = l.dropWhile p := by
  cases h : l.dropWhile p with
  | nil => simp
  | cons c cs =>
    have hc := dropWhile_head_false p l c cs h
    rw [List.dropWhile_cons_of_neg (by simp [hc])]

theorem dropWhile_suffix {α : Type} (p : α → Bool) (l : List α) :
    l.dropWhile p <:+ l := by
  induction l with
  | nil => simp
  | cons a t ih =>
    by_cases hp : p a
    · rw [List.dropWhile_cons_of_pos hp]
      exact ih.trans (List.suffix_cons a t)
    · rw [List.dropWhile_cons_of_neg hp]

theorem lstrip_idem (l : Str) : lstrip (lstrip l) = lstrip l :=
  dropWhile_idem isPySpace l

theorem rstrip_idem (l : Str) : rstrip (rstrip l) = rstrip l := by
  unfold rstrip
  rw [List.reverse_reverse, dropWhile_idem]

theorem rstrip_isPrefix (l : Str) : rstrip l <+: l := by
  have h := dropWhile_suffix isPySpace l.reverse
  have := List.reverse_prefix.mpr h
  simpa [rstrip] using this

theorem lstrip_eq_self_head (l : Str) (c : Char) (cs : Str)
    (hl : lstrip l = l) (hc : l = c :: cs) : isPySpace c = false := by
  apply dropWhile_head_false isPySpace l c cs
  show lstrip l = c :: cs
  rw [hl, hc]

theorem lstrip_rstrip_of_fixed (m : Str) (hm : lstrip m = m) :
    lstrip (rstrip m) = rstrip m := by
  cases h : rstrip m with
  | nil => simp [lstrip]
  | cons c cs =>
    have hpre : rstrip m <+: m := rstrip_isPrefix m
    rw [h] at hpre
    obtain ⟨t, ht⟩ := hpre
    have hc : isPySpace c = false :=
      lstrip_eq_self_head m c (cs ++ t) hm (by rw [← ht]; simp)
    unfold lstrip
    rw [List.dropWhile_cons_of_neg (by simp [hc])]

theorem pyStrip_idem (l : Str) : pyStrip (pyStrip l) = pyStrip l := by
  unfold pyStrip
  rw [lstrip_rstrip_of_fixed (lstrip l) (lstrip_idem l), rstrip_idem]

theorem pyStrip_lstrip_fixed (l : Str) : lstrip (pyStrip l) = pyStrip l :=
  lstrip_rstrip_of_fixed (lstrip l) (lstrip_idem l)

theorem pyStrip_rstrip_fixed (l : Str) : rstrip (pyStrip l) = pyStrip l := by
  unfold pyStrip
  rw [rstrip_idem]

theorem rstrip_eq_self_reverse (s : Str) (h : rstrip s = s) :
    s.reverse.dropWhile isPySpace = s.reverse := by
  have : (s.reverse.dropWhile isPySpace).reverse = s := h
  calc s.reverse.dropWhile isPySpace
      = ((s.reverse.dropWhile isPySpace).reverse).reverse := by rw [List.reverse_reverse]
    _ = s.reverse := by rw [this]

theorem pyStrip_cons_nonspace (x : Char) (s : Str) (hx : isPySpace x = false)
    (hs : rstrip s = s) (hne : s ≠ []) :
    pyStrip (x :: s) = x :: s := by
  unfold pyStrip
  have hl : lstrip (x :: s) = x :: s := by
    unfold lstrip
    rw [List.dropWhile_cons_of_neg (by simp [hx])]
  rw [hl]
  unfold rstrip
  cases hrev : s.reverse with
  | nil => exact absurd (by simpa using congrArg List.reverse hrev) hne
  | cons c cs =>
    have hdw : s.reverse.dropWhile isPySpace = s.reverse := rstrip_eq_self_reverse s hs
    have hc : isPySpace c = false := by
      apply dropWhile_head_false isPySpace s.reverse c cs
      rw [hdw, hrev]
    rw [List.reverse_cons, hrev, List.cons_append]
    rw [List.dropWhile_cons_of_neg (by simp [hc])]
    rw [← List.cons_append, ← hrev, ← List.reverse_cons]
    simp

theorem sanitize_eq_spec (v : Str) : sanitize_csv_value v = sanitizeSpec v := by
  by_cases hv : v = []
  · subst hv; rfl
  · unfold sanitize_csv_value sanitizeSpec
    rw [if_neg hv]

theorem sanitizeSpec_idem (v : Str) : sanitizeSpec (sanitizeSpec v) = sanitizeSpec v := by
  cases hs : pyStrip v with
  | nil =>
    have h1 : sanitizeSpec v = [] := by unfold sanitizeSpec; rw [hs]
    rw [h1]; rfl
  | cons c cs =>
    by_cases hc : c ∈ FORMULA_CHARS
    · have h1 : sanitizeSpec v = squote :: c :: cs := by
        unfold sanitizeSpec; rw [hs]; simp [hc]
      rw [h1]
      unfold sanitizeSpec
      have hfix : pyStrip (squote :: c :: cs) = squote :: c :: cs := by
        apply pyStrip_cons_nonspace
        · decide
        · have h2 := pyStrip_rstrip_fixed v; rw [hs] at h2; exact h2
        · simp
      rw [hfix]
      show (if squote ∈ FORMULA_CHARS then squote :: squote :: c :: cs
            else squote :: c :: cs) = squote :: c :: cs
      rw [if_neg (by decide)]
    · have h1 : sanitizeSpec v = c :: cs := by
        unfold sanitizeSpec; rw [hs]; simp [hc]
      rw [h1]
      unfold sanitizeSpec
      have hfix : pyStrip (c :: cs) = c :: cs := by
        have h2 := pyStrip_idem v; rw [hs] at h2; exact h2
      rw [hfix]
      show (if c ∈ FORMULA_CHARS then squote :: c :: cs else c :: cs) = c :: cs
      rw [if_neg hc]

/-- Claim C4: for every string v, `sanitize_csv_value` returns a single quote
character prepended to the trimmed v when the trimmed v is non-empty and its
first character is one of the unsafe characters, and the trimmed v unchanged
otherwise (the statement `sanitizeSpec`); in particular it prefixes
"=SUM(A1:A9)" with a quote and leaves "Acme Corp" unchanged. -/
theorem sanitize_csv_value_matches_spec :
    (∀ v : Str, sanitize_csv_value v = sanitizeSpec v) ∧
    sanitize_csv_value "=SUM(A1:A9)".data = squote :: "=SUM(A1:A9)".data ∧
    sanitize_csv_value "Acme Corp".data = "Acme Corp".data :=
  ⟨sanitize_eq_spec, by decide, by decide⟩

/-- Claim C5: the sanitizer is idempotent: applying `sanitize_csv_value` to
its own output returns that output unchanged, so an already-prefixed value is
never double-prefixed. -/
theorem sanitize_csv_value_idempotent (v : Str) :
    sanitize_csv_value (sanitize_csv_value v) = sanitize_csv_value v := by
  rw [sanitize_eq_spec (sanitize_csv_value v), sanitize_eq_spec v, sanitizeSpec_idem v]

/-! Python `decimal.Decimal`, modelled exactly: a finite decimal is a signed
integer coefficient together with a count of fractional digits, so the value
of `⟨n, e⟩` is `n / 10 ^ e`.  No floating point is involved. -/

structure Dec where
  num : Int
  exp : Nat
deriving DecidableEq

def Dec.toRat (d : Dec) : ℚ := (d.num : ℚ) / (10 : ℚ) ^ d.exp

/-- Numeric `<` on decimals, by cross-multiplication. -/
def Dec.lt (a b : Dec) : Bool := decide (a.num * 10 ^ b.exp < b.num * 10 ^ a.exp)

/-- Numeric equality of decimals (`Decimal('1.00') == Decimal('1')`). -/
def Dec.eqv (a b : Dec) : Prop := a.num * 10 ^ b.exp = b.num * 10 ^ a.exp

instance (a b : Dec) : Decidable (Dec.eqv a b) := by unfold Dec.eqv; infer_instance

def natOfDigits (l : Str) : Nat := l.foldl (fun n c => 10 * n + (c.toNat - 48)) 0

/-- A parsed Decimal: finite, an infinity, or a NaN. -/
inductive PyDec where
  | fin (d : Dec)
  | infty (neg : Bool)
  | nan
deriving DecidableEq

/-- Consume an optional leading sign; return (negative?, rest). -/
def splitSign : Str → Bool × Str
  | [] => (false, [])
  | c :: r => if c = '-' then (true, r) else if c = '+' then (false, r) else (false, c :: r)

/-- The optional `('e'|'E') [sign] digits` exponent part of the Decimal
grammar, applied after the coefficient has been read. -/
def parseExpTail (d : Dec) : Str → Option Dec
  | [] => some d
  | e :: r =>
    if e = 'e' ∨ e = 'E' then
      let (neg, r2) := splitSign r
      let ds := r2.takeWhile Char.isDigit
      let rest := r2.dropWhile Char.isDigit
      if ds = [] ∨ rest ≠ [] then none
      else if neg then some ⟨d.num, d.exp + natOfDigits ds⟩
      else some ⟨d.num * 10 ^ natOfDigits ds, d.exp⟩
    else none

/-- The `decimal-part` of the Decimal grammar — `digits ['.' digits*]` or
`'.' digits` — returning the coefficient and the unconsumed remainder. -/
def parseDecPart (s : Str) : Option (Dec × Str) :=
  let ip := s.takeWhile Char.isDigit
  let r1 := s.dropWhile Char.isDigit
  match r1 with
  | '.' :: r2 =>
    let fp := r2.takeWhile Char.isDigit
    let r3 := r2.dropWhile Char.isDigit
    if ip = [] ∧ fp = [] then none
    else some (⟨natOfDigits (ip ++ fp), fp.length⟩, r3)
  | _ => if ip = [] then none else some (⟨natOfDigits ip, 0⟩, r1)

/-- The unsigned `numeric-value` of the grammar: a finite decimal (with
optional exponent), `inf`/`infinity`, or `nan`/`snan` with optional trailing
digits, case-insensitively. -/
def pyDecimalUnsigned (s : Str) : Option PyDec :=
  let ls := pyLower s
  if ls = "inf".data ∨ ls = "infinity".data then some (.infty false)
  else if ls.take 3 = "nan".data ∧ (ls.drop 3).all Char.isDigit then some .nan
  else if ls.take 4 = "snan".data ∧ (ls.drop 4).all Char.isDigit then some .nan
  else
    match parseDecPart s with
    | some (d, r) =>
      match parseExpTail d r with
      | some d2 => some (.fin d2)
      | none => none
    | none => none

/-- `Decimal(str)`: leading/trailing whitespace is stripped and underscores
removed, then the numeric-string grammar `[sign] numeric-value` is applied. -/
def pyDecimal (raw : Str) : Option PyDec :=
  let s := (pyStrip raw).filter (fun c => decide (¬ c = '_'))
  let (neg, body) := splitSign s
  match pyDecimalUnsigned body with
  | some (.fin d) => some (.fin (if neg then ⟨-d.num, d.exp⟩ else d))
  | some (.infty _) => some (.infty neg)
  | some .nan => some .nan
  | none => none

/-- `Decimal('999999999999.99')`, the ceiling on amounts. -/
def maxAmount : Dec := ⟨99999999999999, 2⟩

/-- services.py lines 332-341 inside `CSVProcessor._process_row`: the raw
amount string has every comma and every dollar sign removed
(`.replace(',', '').replace('$', '')`) and is stripped, then parsed with
`Decimal`; negative values raise `ValueError`, values above `maxAmount` raise
`ValueError`, a NaN comparison raises `InvalidOperation`, and all of these
are caught and turned into a row-level rejection. -/
def parse_amount (raw : Str) : Option Dec :=
  let cleaned :=
    pyStrip ((raw.filter (fun c => decide (¬ c = ','))).filter (fun c => decide (¬ c = '$')))
  match pyDecimal cleaned with
  | some (.fin d) =>
    if Dec.lt d ⟨0, 0⟩ then none
    else if Dec.lt maxAmount d then none
    else some d
  | some (.infty _) => none
  | some .nan => none
  | none => none

/-- Spec-side amount parser (§4.3, stated for comparison with the code): trim
whitespace, strip a SINGLE LEADING currency symbol, strip comma thousands
separators, parse the remainder as an exact decimal, and reject negative
values, values above the ceiling, and unparseable remainders. -/
def parseAmountSpec (raw : Str) : Option Dec :=
  let t := pyStrip raw
  let t2 := match t with
    | c :: r => if c = '$' then r else c :: r
    | [] => []
  let cleaned := t2.filter (fun c => decide (¬ c = ','))
  match pyDecimal cleaned with
  | some (.fin d) =>
    if Dec.lt d ⟨0, 0⟩ then none
    else if Dec.lt maxAmount d then none
    else some d
  | _ => none

/-- Claim C6 as stated fails on the code: on input "1$2" the code removes the
INTERIOR dollar sign and accepts the value 12, whereas a parser that strips
only a single leading currency symbol (the claim's wording, `parseAmountSpec`)
rejects "1$2" as not parseable as a decimal. -/
theorem parse_amount_inner_dollar_counterexample :
    parse_amount "1$2".data = some ⟨12, 0⟩ ∧ parseAmountSpec "1$2".data = none := by
  constructor
  · decide
  · decide

/-- Claim C6 (amended): the parser removes every comma and every dollar sign
wherever they occur in the input — not only thousands separators and a single
leading currency symbol — trims whitespace, and parses the remainder as an
exact decimal, rejecting anything unparseable, negative, or above
999,999,999,999.99; in particular "$1,234.56" parses to exactly 1234.56,
"-5" fails, and "1000000000000" fails. -/
theorem parse_amount_amended :
    parse_amount "$1,234.56".data = some ⟨123456, 2⟩ ∧
    Dec.toRat ⟨123456, 2⟩ = (123456 : ℚ) / 100 ∧
    parse_amount "-5".data = none ∧
    parse_amount "1000000000000".data = none ∧
    (∀ l r : Str, parse_amount (l ++ '$' :: r) = parse_amount (l ++ r)) ∧
    (∀ l r : Str, parse_amount (l ++ ',' :: r) = parse_amount (l ++ r)) ∧
    (∀ (s : Str) (d : Dec), parse_amount s = some d →
      0 ≤ d.num ∧ Dec.lt maxAmount d = false) := by
  refine ⟨by decide, by norm_num [Dec.toRat], by decide, by decide, ?_, ?_, ?_⟩
  · intro l r
    unfold parse_amount
    simp [List.filter_append]
  · intro l r
    unfold parse_amount
    simp [List.filter_append]
  · intro s d h
    unfold parse_amount at h
    dsimp only at h
    split at h
    next d' heq =>
      split at h
      next => exact absurd h (by simp)
      next hlt0 =>
        split at h
        next => exact absurd h (by simp)
        next hltmax =>
          obtain rfl : d' = d := by simpa using h
          constructor
          · have h0 := hlt0
            simp [Dec.lt] at h0
            exact h0
          · simpa using hltmax
    next => exact absurd h (by simp)
    next => exact absurd h (by simp)
    next => exact absurd h (by simp)

/-- Witness for the amended C6 theorem at the concrete input "$1,234.56". -/
theorem parse_amount_amended_witness :
    0 ≤ (⟨123456, 2⟩ : Dec).num ∧ Dec.lt maxAmount ⟨123456, 2⟩ = false :=
  parse_amount_amended.2.2.2.2.2.2 ("$1,234.56".data) ⟨123456, 2⟩ (by decide)

/-! File validation (services.py lines 47-84). -/

/-- Bytes of an uploaded file. -/
abbrev Byte := Fin 256

/-- A UTF-8 continuation byte (0x80-0xBF). -/
def utf8Cont (b : Byte) : Bool := decide (0x80 ≤ b.val ∧ b.val ≤ 0xBF)

/-- UTF-8 validity of a byte sequence (the RFC 3629 table, as enforced by
Python's utf-8 codec; a truncated trailing sequence is invalid, matching
`bytes.decode('utf-8')` raising on a cut-off multi-byte character). -/
def utf8Valid : List Byte → Bool
  | [] => true
  | b :: rest =>
    if b.val ≤ 0x7F then utf8Valid rest
    else if 0xC2 ≤ b.val ∧ b.val ≤ 0xDF then
      match rest with
      | c1 :: r => utf8Cont c1 && utf8Valid r
      | [] => false
    else if b.val = 0xE0 then
      match rest with
      | c1 :: c2 :: r =>
        decide (0xA0 ≤ c1.val ∧ c1.val ≤ 0xBF) && utf8Cont c2 && utf8Valid r
      | _ => false
    else if (0xE1 ≤ b.val ∧ b.val ≤ 0xEC) ∨ b.val = 0xEE ∨ b.val = 0xEF then
      match rest with
      | c1 :: c2 :: r => utf8Cont c1 && utf8Cont c2 && utf8Valid r
      | _ => false
    else if b.val = 0xED then
      match rest with
      | c1 :: c2 :: r =>
        decide (0x80 ≤ c1.val ∧ c1.val ≤ 0x9F) && utf8Cont c2 && utf8Valid r
      | _ => false
    else if b.val = 0xF0 then
      match rest with
      | c1 :: c2 :: c3 :: r =>
        decide (0x90 ≤ c1.val ∧ c1.val ≤ 0xBF) && utf8Cont c2 && utf8Cont c3 && utf8Valid r
      | _ => false
    else if 0xF1 ≤ b.val ∧ b.val ≤ 0xF3 then
      match rest with
      | c1 :: c2 :: c3 :: r => utf8Cont c1 && utf8Cont c2 && utf8Cont c3 && utf8Valid r
      | _ => false
    else if b.val = 0xF4 then
      match rest with
      | c1 :: c2 :: c3 :: r =>
        decide (0x80 ≤ c1.val ∧ c1.val ≤ 0x8F) && utf8Cont c2 && utf8Cont c3 && utf8Valid r
      | _ => false
    else false

/-- `bytes.decode('latin-1')`: the latin-1 codec maps each byte 0..255 to the
code point of the same value, so it succeeds exactly when every byte is below
256 — which holds for every byte. -/
def canDecodeLatin1 (bs : List Byte) : Bool := bs.all (fun b => decide (b.val < 256))

theorem canDecodeLatin1_true (bs : List Byte) : canDecodeLatin1 bs = true := by
  simp only [canDecodeLatin1, List.all_eq_true]
  intro b _
  exact decide_eq_true b.isLt

/-- An uploaded file as the validator sees it: declared name, declared size
in bytes, and content bytes. -/
structure UFile where
  name : Str
  size : Nat
  content : List Byte

/-- services.py lines 47-84, `validate_csv_file`: check in order the `.csv`
extension (case-insensitively), the 50 MiB size ceiling, the absence of null
bytes in the first 1024 content bytes, and that this prefix decodes as UTF-8
or, failing that, as latin-1.  Returns `(is_valid, error_message)`. -/
def validate_csv_file (f : UFile) : Bool × Str :=
  if ¬ (".csv".data.isSuffixOf (pyLower f.name)) then
    (false, "File must have .csv extension".data)
  else if f.size > 50 * 1024 * 1024 then
    (false, "File size must be less than 50MB".data)
  else
    let first_bytes := f.content.take 1024
    if (0 : Byte) ∈ first_bytes then
      (false, "File appears to be binary, not CSV".data)
    else if utf8Valid first_bytes then (true, [])
    else if canDecodeLatin1 first_bytes then (true, [])
    else (false, "File encoding not recognized".data)

/-- Claim C10: the latin-1 fallback decodes every byte sequence, so file
validation can never reject a file on encoding grounds: the
"File encoding not recognized" branch of `validate_csv_file` is unreachable,
and every file with an accepted name and size whose 1024-byte prefix is free
of null bytes passes validation outright. -/
theorem encoding_rejection_unreachable :
    (∀ bs : List Byte, canDecodeLatin1 bs = true) ∧
    (∀ f : UFile, (validate_csv_file f).2 ≠ "File encoding not recognized".data) ∧
    (∀ f : UFile, ".csv".data.isSuffixOf (pyLower f.name) = true →
      f.size ≤ 50 * 1024 * 1024 → (0 : Byte) ∉ f.content.take 1024 →
      validate_csv_file f = (true, [])) := by
  refine ⟨canDecodeLatin1_true, ?_, ?_⟩
  · intro f
    unfold validate_csv_file
    dsimp only
    split
    · decide
    · split
      · decide
      · split
        · decide
        · split
          · decide
          · rw [if_pos (canDecodeLatin1_true _)]
            decide
  · intro f h1 h2 h3
    unfold validate_csv_file
    rw [if_neg (by simp [h1])]
    rw [if_neg (by omega)]
    dsimp only
    rw [if_neg h3]
    by_cases hu : utf8Valid (f.content.take 1024) = true
    · rw [if_pos hu]
    · rw [if_neg hu, if_pos (canDecodeLatin1_true _)]

/-- A concrete well-formed CSV file used by witnesses: name "data.csv",
size 10, content "hello". -/
def fileW : UFile := ⟨"data.csv".data, 10, [104, 101, 108, 108, 111]⟩

/-- Witness for C10 at the concrete file `fileW`. -/
theorem encoding_rejection_unreachable_witness :
    validate_csv_file fileW = (true, []) :=
  encoding_rejection_unreachable.2.2 fileW (by decide) (by decide) (by decide)

/-! The data model (models.py) and the CSV processor (services.py 87-378). -/

abbrev OrgId := Nat

/-- A tenant (apps.authentication.models.Organization) as the processor reads
it: primary key, name, slug, active flag. -/
structure Org where
  id : OrgId
  name : Str
  slug : Str
  is_active : Bool
deriving DecidableEq

/-- models.py lines 72-115: the Transaction fields the processor writes.
Suppliers and categories are referenced by their natural key
(organization, name), identifying because of their `unique_together`. -/
structure TxnRec where
  organization : OrgId
  uploaded_by : Nat
  supplier : Str
  category : Str
  amount : Dec
  date : Nat
  upload_batch : Str
  invoice_number : Str
  extra : List (String × Str)
deriving DecidableEq

/-- The relational store: supplier and category rows keyed by
(organization, name), and transaction rows. -/
structure DB where
  suppliers : List (OrgId × Str)
  categories : List (OrgId × Str)
  transactions : List TxnRec
deriving DecidableEq

def emptyDB : DB := ⟨[], [], []⟩

/-- models.py lines 117-125 (`Transaction.Meta`): the Meta declares
`ordering` and `indexes` only — there is NO `unique_together` and NO
`UniqueConstraint` on the Transaction model, so the list of storage-level
uniqueness constraints the schema enforces on transaction rows is empty.
(Contrast Supplier.Meta and Category.Meta, models.py lines 27-32 and 60-66,
which declare `unique_together = ['organization', 'name']`.) -/
def transactionUniqueConstraints : List (TxnRec → TxnRec → Bool) := []

/-- A transaction insert violates the schema iff some declared uniqueness
constraint matches an existing row. -/
def txnConflict (db : DB) (t : TxnRec) : Bool :=
  transactionUniqueConstraints.any (fun same => db.transactions.any (fun u => same t u))

/-- `Transaction.objects.create(...)`: `none` models `IntegrityError`. -/
def insertTxn (db : DB) (t : TxnRec) : Option DB :=
  if txnConflict db t then none
  else some { db with transactions := db.transactions ++ [t] }

theorem insertTxn_eq (db : DB) (t : TxnRec) :
    insertTxn db t = some { db with transactions := db.transactions ++ [t] } := by
  simp [insertTxn, txnConflict, transactionUniqueConstraints]

/-- The uniqueness key the spec claims the storage layer enforces on
TransactionRecord: (tenant, supplier, category, amount, date, invoice
number), amounts compared numerically. -/
def specSameKey (t u : TxnRec) : Prop :=
  t.organization = u.organization ∧ t.supplier = u.supplier ∧
  t.category = u.category ∧ Dec.eqv t.amount u.amount ∧
  t.date = u.date ∧ t.invoice_number = u.invoice_number

instance (t u : TxnRec) : Decidable (specSameKey t u) := by
  unfold specSameKey; infer_instance

/-- `Supplier.objects.get_or_create(organization=…, name=…)` and the same for
Category: look the (organization, name) row up and create it only when
absent. -/
def getOrCreateDim (dims : List (OrgId × Str)) (org : OrgId) (name : Str) :
    List (OrgId × Str) :=
  if (org, name) ∈ dims then dims else dims ++ [(org, name)]

/-- A cell of the parsed dataframe: `none` models a pandas NaN. -/
abbrev Cell := Option Str

/-- A dataframe row: column name to cell. -/
abbrev Row := List (String × Cell)

def rowGet (r : Row) (c : String) : Option Cell :=
  (r.find? (fun p => decide (p.1 = c))).map Prod.snd

/-- `col in row and pd.notna(row[col])`. -/
def rowNotNa (r : Row) (c : String) : Bool :=
  match rowGet r c with
  | some (some _) => true
  | _ => false

/-- `str(cell)`: a NaN cell prints as "nan". -/
def pyStr : Cell → Str
  | some s => s
  | none => "nan".data

/-- `row[col]` for a required column: a missing key raises `KeyError`, whose
`str()` is the quoted column name. -/
def getCell (r : Row) (c : String) : Except Str Cell :=
  match rowGet r c with
  | some cell => .ok cell
  | none => .error (squote :: (c.data ++ [squote]))

/-- External collaborators of the processor: the tenant store and the pandas
date parser `pd.to_datetime(raw).date()`, which lives outside this
repository. -/
structure Env where
  orgs : List Org
  parseDate : Cell → Option Nat

/-- The processor's per-run configuration: the constructor arguments of
`CSVProcessor.__init__`, with the secure random batch id already drawn. -/
structure Config where
  default_organization : Org
  user : Nat
  skip_duplicates : Bool
  allow_multi_org : Bool
  batch_id : Str

def natStr (n : Nat) : Str := (Nat.repr n).data

/-- Python `', '.join(strings)`. -/
def joinCommaSpace : List Str → Str
  | [] => []
  | [s] => s
  | s :: rest => s ++ (',' :: ' ' :: joinCommaSpace rest)

/-- services.py lines 230-276, `CSVProcessor._resolve_organization`: an empty
identifier falls back to the default organization; otherwise strip it and
match active organizations case-insensitively on name or slug, taking the
first; on a miss raise a `ValueError` naming the row and listing up to ten
valid organization names.  (The per-run cache only memoizes lookups against a
store that is read-only during the run, so it does not change the result.) -/
def resolveOrg (env : Env) (defaultOrg : Org) (ident : Str) (rowIndex : Nat) :
    Except Str Org :=
  if ident = [] then .ok defaultOrg
  else
    let ident2 := pyStrip ident
    match env.orgs.find? (fun o =>
        o.is_active &&
          (pyLower o.name == pyLower ident2 || pyLower o.slug == pyLower ident2)) with
    | some o => .ok o
    | none =>
      let valid_orgs := ((env.orgs.filter (fun o => o.is_active)).map Org.name).take 10
      let valid_list :=
        if valid_orgs.length = 10 then joinCommaSpace valid_orgs ++ ", ...".data
        else joinCommaSpace valid_orgs
      .error ("Row ".data ++ natStr (rowIndex + 2) ++ ": Organization ".data ++
        [squote] ++ ident2 ++ [squote] ++ " not found. Valid organizations: ".data ++
        valid_list)

/-- The processor's running counters (`self.stats`). -/
structure Stats where
  total : Int
  successful : Int
  failed : Int
  duplicates : Int
deriving DecidableEq

/-- One entry of the persisted error log; the whole-batch abort entry carries
no row number. -/
structure ErrEntry where
  row : Option Int
  error : Str
deriving DecidableEq

/-- services.py lines 208-211: substrings considered sensitive. -/
def SENSITIVE_PATTERNS : List Str :=
  ["DETAIL:".data, "SQL".data, "psycopg2".data, "postgresql".data,
   "/app/".data, "/home/".data, "Traceback".data, "File \"".data]

/-- services.py lines 206-222, `_sanitize_error_message`: replace any message
containing a sensitive substring (case-insensitively) wholesale by a generic
phrase, else truncate beyond 200 characters. -/
def sanitizeErrorMessage (msg : Str) : Str :=
  if SENSITIVE_PATTERNS.any (fun p => decide (pyLower p <:+: pyLower msg)) then
    "An error occurred while processing this row.".data
  else if msg.length > 200 then msg.take 200 ++ "...".data
  else msg

/-- services.py lines 195-204, `_sanitize_error_log`: keep at most 100
entries, each reduced to its row number (default 0) and sanitized message. -/
def sanitizeErrorLog (errors : List ErrEntry) : List ErrEntry :=
  (errors.take 100).map (fun e => ⟨some (e.row.getD 0), sanitizeErrorMessage e.error⟩)

def REQUIRED_COLUMNS : List String := ["supplier", "category", "amount", "date"]

def OPTIONAL_COLUMNS : List String :=
  ["description", "subcategory", "location", "fiscal_year",
   "spend_band", "payment_method", "invoice_number", "organization"]

/-- services.py lines 343-352: the sanitized optional fields, with
invoice_number and organization excluded. -/
def buildOptionalData (row : Row) : List (String × Str) :=
  (OPTIONAL_COLUMNS.filter
      (fun c => decide (¬ c = "invoice_number") && decide (¬ c = "organization"))).filterMap
    (fun c =>
      match rowGet row c with
      | some (some v) => some (c, sanitize_csv_value (pyStrip v))
      | _ => none)

def supplierRequiredMsg : Str := "Supplier name is required".data
def categoryRequiredMsg : Str := "Category name is required".data
def invalidDateMsg (raw : Str) : Str := "Invalid date format: ".data ++ raw
def invalidAmountMsg (raw : Str) : Str := "Invalid amount value: ".data ++ raw
def duplicateMsg : Str := "Duplicate transaction detected".data

/-- services.py lines 292-378, the body of `CSVProcessor._process_row`, with
the database threaded explicitly.  An error result carries the raised message
together with the database state at the moment of the raise — the writes the
surrounding `transaction.atomic` is about to roll back. -/
def processRowBody (env : Env) (cfg : Config) (db : DB) (stats : Stats)
    (row : Row) (index : Nat) : Except (Str × DB) (DB × Stats) :=
  match (if cfg.allow_multi_org && rowNotNa row "organization" then
           resolveOrg env cfg.default_organization
             (pyStr ((rowGet row "organization").getD none)) index
         else .ok cfg.default_organization) with
  | .error m => .error (m, db)
  | .ok organization =>
  match getCell row "supplier" with
  | .error m => .error (m, db)
  | .ok supplierCell =>
  let supplier_name := sanitize_csv_value (pyStrip (pyStr supplierCell))
  if supplier_name = [] ∨ supplier_name = [squote] then .error (supplierRequiredMsg, db)
  else
  let db1 := { db with suppliers := getOrCreateDim db.suppliers organization.id supplier_name }
  match getCell row "category" with
  | .error m => .error (m, db1)
  | .ok categoryCell =>
  let category_name := sanitize_csv_value (pyStrip (pyStr categoryCell))
  if category_name = [] ∨ category_name = [squote] then .error (categoryRequiredMsg, db1)
  else
  let db2 := { db1 with categories := getOrCreateDim db1.categories organization.id category_name }
  match getCell row "date" with
  | .error m => .error (m, db2)
  | .ok dateCell =>
  match env.parseDate dateCell with
  | none => .error (invalidDateMsg (pyStr dateCell), db2)
  | some date =>
  match getCell row "amount" with
  | .error m => .error (m, db2)
  | .ok amountCell =>
  match parse_amount (pyStr amountCell) with
  | none => .error (invalidAmountMsg (pyStr amountCell), db2)
  | some amount =>
  let optional_data := buildOptionalData row
  let invoice_number :=
    if rowNotNa row "invoice_number" then
      sanitize_csv_value (pyStrip (pyStr ((rowGet row "invoice_number").getD none)))
    else []
  let t : TxnRec :=
    { organization := organization.id
      uploaded_by := cfg.user
      supplier := supplier_name
      category := category_name
      amount := amount
      date := date
      upload_batch := cfg.batch_id
      invoice_number := invoice_number
      extra := optional_data }
  match insertTxn db2 t with
  | some db3 => .ok (db3, stats)
  | none =>
    if cfg.skip_duplicates then
      .ok (db2, { stats with
                  duplicates := stats.duplicates + 1
                  successful := stats.successful - 1 })
    else .error (duplicateMsg, db2)

/-- `_process_row` as its caller sees it: the `@transaction.atomic` decorator
commits the row's writes on a normal return and rolls them all back when an
exception escapes, so an error result leaves the caller's database intact. -/
def processRow (env : Env) (cfg : Config) (db : DB) (stats : Stats)
    (row : Row) (index : Nat) : Except Str (DB × Stats) :=
  match processRowBody env cfg db stats row index with
  | .ok res => .ok res
  | .error (m, _) => .error m

/-- services.py lines 278-290, `_process_rows`: fold over the rows; a normal
return increments `successful`, an exception increments `failed` and appends
an error entry carrying the 2-based row number; processing always continues
with the next row. -/
def processRows (env : Env) (cfg : Config) :
    List Row → Nat → DB → Stats → List ErrEntry → DB × Stats × List ErrEntry
  | [], _, db, stats, errs => (db, stats, errs)
  | r :: rest, i, db, stats, errs =>
    match processRow env cfg db stats r i with
    | .ok (db2, stats2) =>
      processRows env cfg rest (i + 1) db2
        { stats2 with successful := stats2.successful + 1 } errs
    | .error m =>
      processRows env cfg rest (i + 1) db
        { stats with failed := stats.failed + 1 }
        (errs ++ [⟨some ((i : Int) + 2), m⟩])

/-- models.py lines 158-164, DataUpload.STATUS_CHOICES; the choice the source
spells 'partial' is called `partialDone` here only because of the Lean
keyword. -/
inductive Status where
  | processing
  | completed
  | failed
  | partialDone
deriving DecidableEq

/-- models.py lines 131-175: the DataUpload fields the processor writes; the
counters default to 0 and the status to processing. -/
structure Upload where
  file_name : Str
  file_size : Nat
  batch_id : Str
  total_rows : Int := 0
  successful_rows : Int := 0
  failed_rows : Int := 0
  duplicate_rows : Int := 0
  status : Status := .processing
  error_log : List ErrEntry := []
deriving DecidableEq

/-- The parsed CSV: the `pd.read_csv` output as column names plus rows. -/
structure DF where
  columns : List String
  rows : List Row

/-- services.py line 26. -/
def MAX_ROWS_PER_UPLOAD : Nat := 50000

/-- services.py lines 224-228, `_validate_columns`: the required columns
missing from the dataframe. -/
def missingColumns (df : DF) : List String :=
  REQUIRED_COLUMNS.filter (fun c => decide (¬ c ∈ df.columns))

def missingColsMsg (missing : List String) : Str :=
  "Missing required columns: ".data ++ joinCommaSpace (missing.map String.data)

def rowCapMsg (n : Nat) : Str :=
  "File contains ".data ++ natStr n ++ " rows, maximum allowed is ".data ++
    natStr MAX_ROWS_PER_UPLOAD

/-- The outcome of `CSVProcessor.process`: a `ValueError` before the
DataUpload exists (invalid file), a whole-batch abort (the upload saved as
failed and the error re-raised), or a completed run. -/
inductive ProcessResult where
  | invalidFile (msg : Str)
  | aborted (upload : Upload) (db : DB) (msg : Str)
  | finished (upload : Upload) (db : DB)
deriving DecidableEq

/-- services.py lines 131-193, `CSVProcessor.process`: validate the file
(raising before any DataUpload exists on failure); create the upload record
with status processing; then, inside the try block, record the row count,
abort on the 50000-row cap or on missing required columns — the upload is
saved as failed with a single sanitized error entry and its counters left at
their defaults — and otherwise process every row and save the counters, the
sanitized error log, and the terminal status chosen from the final
counters. -/
def process (env : Env) (cfg : Config) (file : UFile) (df : DF) (db : DB) :
    ProcessResult :=
  let v := validate_csv_file file
  if v.1 = false then .invalidFile ("Invalid file: ".data ++ v.2)
  else
    let upload : Upload :=
      { file_name := file.name, file_size := file.size, batch_id := cfg.batch_id }
    if df.rows.length > MAX_ROWS_PER_UPLOAD then
      let msg := rowCapMsg df.rows.length
      .aborted { upload with
                 status := .failed
                 error_log := [⟨none, sanitizeErrorMessage msg⟩] } db msg
    else if missingColumns df ≠ [] then
      let msg := missingColsMsg (missingColumns df)
      .aborted { upload with
                 status := .failed
                 error_log := [⟨none, sanitizeErrorMessage msg⟩] } db msg
    else
      let res := processRows env cfg df.rows 0 db
        { total := (df.rows.length : Int), successful := 0, failed := 0, duplicates := 0 } []
      .finished
        { upload with
          total_rows := res.2.1.total
          successful_rows := res.2.1.successful
          failed_rows := res.2.1.failed
          duplicate_rows := res.2.1.duplicates
          error_log := sanitizeErrorLog res.2.2
          status :=
            if res.2.1.failed = 0 then .completed
            else if res.2.1.successful > 0 then .partialDone
            else .failed }
        res.1

/-! Concrete fixtures used by the executable claims and witnesses. -/

def orgW : Org :=
  { id := 1
    name := "Versatex".data
    slug := "versatex".data
    is_active := true }

/-- A sample date parser standing in for `pd.to_datetime(...).date()` (an
external pandas collaborator) in concrete runs: accepts exactly ISO
"YYYY-MM-DD" — one of the representations pandas accepts — and returns the
date as the number yyyymmdd. -/
def dateISO : Cell → Option Nat
  | some [y1, y2, y3, y4, h1, m1, m2, h2, d1, d2] =>
    if y1.isDigit && y2.isDigit && y3.isDigit && y4.isDigit && h1 == '-' &&
       m1.isDigit && m2.isDigit && h2 == '-' && d1.isDigit && d2.isDigit then
      some (natOfDigits [y1, y2, y3, y4, m1, m2, d1, d2])
    else none
  | _ => none

def envW : Env := { orgs := [orgW], parseDate := dateISO }

def cfgW : Config :=
  { default_organization := orgW
    user := 7
    skip_duplicates := true
    allow_multi_org := false
    batch_id := "batchA".data }

def cfgW2 : Config := { cfgW with batch_id := "batchB".data }

/-- A concrete transaction row with an empty invoice number. -/
def tx0 : TxnRec :=
  { organization := 1
    uploaded_by := 7
    supplier := "Acme".data
    category := "Office".data
    amount := ⟨10000, 2⟩
    date := 20240115
    upload_batch := "batch1".data
    invoice_number := []
    extra := [] }

/-- Claim C1 fails on the code: the Transaction model declares no uniqueness
constraint, so the storage layer never raises a conflict — `insertTxn` (the
schema derived from `Transaction.Meta`) succeeds on every insert, and
inserting the identical row `tx0` twice yields two stored rows with the same
(tenant, supplier, category, amount, date, invoice number) key instead of a
storage-level conflict on the second insert. -/
theorem duplicate_insert_raises_no_conflict :
    transactionUniqueConstraints = [] ∧
    (∀ (db : DB) (t : TxnRec), (insertTxn db t).isSome = true) ∧
    insertTxn emptyDB tx0 = some ⟨[], [], [tx0]⟩ ∧
    insertTxn ⟨[], [], [tx0]⟩ tx0 = some ⟨[], [], [tx0, tx0]⟩ ∧
    specSameKey tx0 tx0 := by
  refine ⟨rfl, ?_, by decide, by decide, by decide⟩
  intro db t
  rw [insertTxn_eq]
  rfl

/-- The one-row dataframe Acme / Office / 100 / 2024-01-15. -/
def rowW : Row :=
  [("supplier", some "Acme".data), ("category", some "Office".data),
   ("amount", some "100".data), ("date", some "2024-01-15".data)]

def dfW : DF := { columns := REQUIRED_COLUMNS, rows := [rowW] }

/-- The transaction created from `rowW` by the first run. -/
def txA : TxnRec :=
  { organization := 1
    uploaded_by := 7
    supplier := "Acme".data
    category := "Office".data
    amount := ⟨100, 0⟩
    date := 20240115
    upload_batch := "batchA".data
    invoice_number := []
    extra := [] }

/-- The identical transaction created again by the second run. -/
def txB : TxnRec := { txA with upload_batch := "batchB".data }

def dbRun1 : DB := ⟨[(1, "Acme".data)], [(1, "Office".data)], [txA]⟩

def dbRun2 : DB := ⟨[(1, "Acme".data)], [(1, "Office".data)], [txA, txB]⟩

/-- The upload record produced by the first run. -/
def u1W : Upload :=
  { file_name := "data.csv".data
    file_size := 10
    batch_id := "batchA".data
    total_rows := 1
    successful_rows := 1
    failed_rows := 0
    duplicate_rows := 0
    status := .completed
    error_log := [] }

/-- The upload record produced by the second run. -/
def u2W : Upload := { u1W with batch_id := "batchB".data }

/-- Claim C2 fails on the code: ingesting the identical valid one-row file
into the same tenant twice with skip_duplicates=true yields successful == 1,
duplicates == 0 on BOTH runs — the claim requires successful == 0 and
duplicates == 1 on the second run — and the store accumulates a second
transaction with the same uniqueness key, because no storage constraint ever
raises the IntegrityError the duplicate-skip path depends on. -/
theorem reingest_not_deduplicated :
    process envW cfgW fileW dfW emptyDB = .finished u1W dbRun1 ∧
    u1W.successful_rows = 1 ∧ u1W.duplicate_rows = 0 ∧
    process envW cfgW2 fileW dfW dbRun1 = .finished u2W dbRun2 ∧
    u2W.successful_rows = 1 ∧ u2W.duplicate_rows = 0 ∧
    dbRun2.transactions = [txA, txB] ∧ specSameKey txA txB := by
  refine ⟨by decide, rfl, rfl, by decide, rfl, rfl, rfl, by decide⟩

/-! Counter bookkeeping of `_process_rows`.  Because the Transaction model
declares no uniqueness constraint, `insertTxn` always succeeds and the
duplicate-skip branch (the only place `_process_row` touches the counters) is
unreachable, so a row outcome is always exactly one of successful and
failed. -/

theorem processRowBody_ok_stats (env : Env) (cfg : Config) (db : DB)
    (stats : Stats) (row : Row) (i : Nat) (db2 : DB) (s2 : Stats)
    (h : processRowBody env cfg db stats row i = .ok (db2, s2)) : s2 = stats := by
  unfold processRowBody at h
  dsimp only at h
  iterate 12 (all_goals (try split at h))
  all_goals simp_all [insertTxn_eq]

theorem processRow_ok_stats (env : Env) (cfg : Config) (db : DB)
    (stats : Stats) (row : Row) (i : Nat) (db2 : DB) (s2 : Stats)
    (h : processRow env cfg db stats row i = .ok (db2, s2)) : s2 = stats := by
  unfold processRow at h
  split at h
  next res heq =>
    obtain ⟨db3, s3⟩ := res
    obtain ⟨rfl, rfl⟩ : db3 = db2 ∧ s3 = s2 := by simpa using h
    exact processRowBody_ok_stats _ _ _ _ _ _ _ _ heq
  next => simp at h

theorem processRows_counts (env : Env) (cfg : Config) :
    ∀ (rows : List Row) (i : Nat) (db : DB) (stats : Stats) (errs : List ErrEntry),
      (processRows env cfg rows i db stats errs).2.1.successful +
          (processRows env cfg rows i db stats errs).2.1.failed =
        stats.successful + stats.failed + rows.length ∧
      (processRows env cfg rows i db stats errs).2.1.total = stats.total ∧
      (processRows env cfg rows i db stats errs).2.1.duplicates = stats.duplicates := by
  intro rows
  induction rows with
  | nil => intro i db stats errs; simp [processRows]
  | cons r rest ih =>
    intro i db stats errs
    unfold processRows
    cases h : processRow env cfg db stats r i with
    | ok res =>
      obtain ⟨db2, stats2⟩ := res
      have hs := processRow_ok_stats env cfg db stats r i db2 stats2 h
      dsimp only
      rw [hs]
      have h3 := ih (i + 1) db2 { stats with successful := stats.successful + 1 } errs
      dsimp only at h3
      simp only [List.length_cons]
      refine ⟨?_, ?_, ?_⟩ <;> omega
    | error m =>
      dsimp only
      have h3 := ih (i + 1) db { stats with failed := stats.failed + 1 }
        (errs ++ [⟨some ((i : Int) + 2), m⟩])
      dsimp only at h3
      simp only [List.length_cons]
      refine ⟨?_, ?_, ?_⟩ <;> omega

/-- Claim C3: every batch that reaches a terminal status through normal row
processing (no whole-batch abort, i.e. `process` returns `finished`)
satisfies total_rows = successful_rows + failed_rows, for every
skip_duplicates setting and every mix of row outcomes. -/
theorem finished_total_eq_successful_add_failed
    (env : Env) (cfg : Config) (file : UFile) (df : DF) (db : DB)
    (u : Upload) (db2 : DB)
    (h : process env cfg file df db = .finished u db2) :
    u.total_rows = u.successful_rows + u.failed_rows := by
  unfold process at h
  dsimp only at h
  split at h
  next => simp at h
  next =>
    split at h
    next => simp at h
    next =>
      split at h
      next => simp at h
      next =>
        injection h with h1 h2
        subst h1
        have hc := processRows_counts env cfg df.rows 0 db
          { total := (df.rows.length : Int), successful := 0, failed := 0, duplicates := 0 } []
        dsimp only
        simp at hc
        omega

/-- Witness for C3 at the concrete finished run of the one-row file. -/
theorem finished_total_eq_successful_add_failed_witness :
    u1W.total_rows = u1W.successful_rows + u1W.failed_rows :=
  finished_total_eq_successful_add_failed envW cfgW fileW dfW emptyDB u1W dbRun1 (by decide)

/-- Claim C7: when every row is consumed, the terminal status is decided
exactly once from the final counters: completed when failed_rows = 0, else
partial when successful_rows > 0, else failed; no other status can come out
of this path. -/
theorem finished_status_rule
    (env : Env) (cfg : Config) (file : UFile) (df : DF) (db : DB)
    (u : Upload) (db2 : DB)
    (h : process env cfg file df db = .finished u db2) :
    u.status = (if u.failed_rows = 0 then Status.completed
      else if u.successful_rows > 0 then Status.partialDone else Status.failed) := by
  unfold process at h
  dsimp only at h
  split at h
  next => simp at h
  next =>
    split at h
    next => simp at h
    next =>
      split at h
      next => simp at h
      next =>
        injection h with h1 h2
        subst h1
        rfl

/-- Witness for C7 at the concrete finished run of the one-row file. -/
theorem finished_status_rule_witness :
    u1W.status = (if u1W.failed_rows = 0 then Status.completed
      else if u1W.successful_rows > 0 then Status.partialDone else Status.failed) :=
  finished_status_rule envW cfgW fileW dfW emptyDB u1W dbRun1 (by decide)

/-- Claim C8: an upload that fails whole-batch validation — the 50000-row cap
or a missing required column among supplier, category, amount, date — aborts
before any row is processed: the saved upload has status failed and
total_rows = 0 (the counters keep their defaults), the database is returned
untouched (zero TransactionRecords created), and the error log is exactly one
sanitized entry. -/
theorem batch_abort_before_rows
    (env : Env) (cfg : Config) (file : UFile) (df : DF) (db : DB)
    (hfile : (validate_csv_file file).1 = true)
    (hbad : df.rows.length > MAX_ROWS_PER_UPLOAD ∨ missingColumns df ≠ []) :
    ∃ u m, process env cfg file df db = .aborted u db m ∧
      u.status = .failed ∧ u.total_rows = 0 ∧
      u.error_log = [⟨none, sanitizeErrorMessage m⟩] := by
  unfold process
  dsimp only
  rw [if_neg (by simp [hfile])]
  by_cases hcap : df.rows.length > MAX_ROWS_PER_UPLOAD
  · rw [if_pos hcap]
    exact ⟨_, _, rfl, rfl, rfl, rfl⟩
  · have hmiss : missingColumns df ≠ [] := by
      rcases hbad with hb | hb
      · exact absurd hb hcap
      · exact hb
    rw [if_neg hcap, if_pos hmiss]
    exact ⟨_, _, rfl, rfl, rfl, rfl⟩

/-- A dataframe missing the required `category` column. -/
def dfBad : DF := { columns := ["supplier", "amount", "date"], rows := [] }

/-- Witness for C8 at the concrete file missing the category column. -/
theorem batch_abort_before_rows_witness :
    ∃ u m, process envW cfgW fileW dfBad emptyDB = .aborted u emptyDB m ∧
      u.status = .failed ∧ u.total_rows = 0 ∧
      u.error_log = [⟨none, sanitizeErrorMessage m⟩] :=
  batch_abort_before_rows envW cfgW fileW dfBad emptyDB (by decide) (Or.inr (by decide))

/-- Claim C9: when a row's processing fails after it has begun, the atomic
unit rolls back every write the row made — whatever partial state `dbPartial`
the row body had built, the batch continues from the untouched database
`db` — and the failure never prevents the remaining rows from being
processed: the fold continues over `rest` with only the failed counter and
the error log updated. -/
theorem row_failure_rolls_back_and_continues
    (env : Env) (cfg : Config) (r : Row) (rest : List Row) (i : Nat)
    (db : DB) (stats : Stats) (errs : List ErrEntry) (m : Str) (dbPartial : DB)
    (h : processRowBody env cfg db stats r i = .error (m, dbPartial)) :
    processRows env cfg (r :: rest) i db stats errs =
      processRows env cfg rest (i + 1) db
        { stats with failed := stats.failed + 1 }
        (errs ++ [⟨some ((i : Int) + 2), m⟩]) := by
  conv_lhs => rw [processRows]
  have hp : processRow env cfg db stats r i = .error m := by
    unfold processRow
    rw [h]
  rw [hp]

/-- A row whose supplier and category are new but whose amount is
unparseable. -/
def rowBad : Row :=
  [("supplier", some "NewCo".data), ("category", some "Office".data),
   ("amount", some "abc".data), ("date", some "2024-01-15".data)]

def statsW : Stats := ⟨1, 0, 0, 0⟩

/-- The partial writes `rowBad` makes before its amount fails: both
dimension rows created, no transaction. -/
def dbBadPartial : DB := ⟨[(1, "NewCo".data)], [(1, "Office".data)], []⟩

/-- Witness for C9: the bad-amount row creates a supplier and a category and
then fails, and the batch continues from the original empty database with
only the failed counter and error log updated. -/
theorem row_failure_rolls_back_and_continues_witness :
    processRowBody envW cfgW emptyDB statsW rowBad 0 =
      .error (invalidAmountMsg "abc".data, dbBadPartial) ∧
    dbBadPartial.suppliers ≠ emptyDB.suppliers ∧
    processRows envW cfgW [rowBad] 0 emptyDB statsW [] =
      processRows envW cfgW [] 1 emptyDB
        { statsW with failed := statsW.failed + 1 }
        ([] ++ [⟨some ((0 : Int) + 2), invalidAmountMsg "abc".data⟩]) :=
  ⟨by rfl, by decide,
    row_failure_rolls_back_and_continues envW cfgW rowBad [] 0 emptyDB statsW []
      (invalidAmountMsg "abc".data) dbBadPartial (by rfl)⟩

end Versatex
